import Mathlib

/-!
Verification of the koordlet cpuset runtime-hook plugin
(`pkg/koordlet/runtimehooks/hooks/cpuset`): the rule parser, the cpuset
resolver for containers and host applications, and the reconciliation
callback.  The implementation file `rule.go` is not part of the source
snapshot; the definitions below are modelled from the specification
(`spec.md` §3, §4.1, §4.2, §4.5) and cross-checked against the behaviour
pinned by the repository's own test file
`pkg/koordlet/runtimehooks/hooks/cpuset/rule_test.go`.

JSON decoding is an external serialization boundary; an annotated value is
embedded as `Decoded α`: either a successfully decoded value or a record
that the raw text was malformed.
-/

namespace Koordlet.Cpuset

/-- Result of JSON-decoding one annotation value: either the decoded value
or the fact that the raw string was malformed. -/
inductive Decoded (α : Type) : Type where
  | ok (a : α) : Decoded α
  | malformed : Decoded α
deriving DecidableEq, Repr

/-- Modelled from the spec: `CPUSharedPool` — one shared CPU pool scoped to
a socket and NUMA node, with a cpuset range-list string (spec §3). -/
structure CPUSharedPool where
  socket : Int
  node : Int
  cpuset : String
deriving DecidableEq, Repr

/-- Modelled from the spec: kubelet CPU-manager policy, mirroring the
runtime CPU manager mode; the policy is the string `"none"` or `"static"`
(spec §3, §6). -/
structure KubeletCPUManagerPolicy where
  policy : String
deriving DecidableEq, Repr

/-- Modelled from the spec: `SystemQOSResource` — the CPU set reserved for
system-tier workloads (spec §3). -/
structure SystemQOSResource where
  cpuset : String
deriving DecidableEq, Repr

/-- Modelled from the spec: per-NUMA-node resource allocation of a pod. A
resource is a (name, quantity) pair; quantities are naturals here since
only presence of a CPU-named resource matters to the resolver (spec §3). -/
structure NUMANodeResource where
  node : Int
  resources : List (String × Nat)
deriving DecidableEq, Repr

/-- Modelled from the spec: `ResourceStatus` — the per-pod allocation
payload carried in the pod annotation: a top-level cpuset override
(highest precedence) plus NUMA-node resource allocations (spec §3, §6). -/
structure ResourceStatus where
  cpuset : String
  numaNodeResources : List NUMANodeResource
deriving DecidableEq, Repr

/-- Modelled from the spec: `Rule` — the aggregate cpuset policy snapshot:
kubelet policy, shared pools, best-effort shared pools, and the system-QoS
cpuset (spec §3).  Named `cpusetRule` as in the repository's tests. -/
structure cpusetRule where
  kubeletPolicy : KubeletCPUManagerPolicy
  sharePools : List CPUSharedPool
  beSharePools : List CPUSharedPool
  systemQOSCPUSet : String
deriving DecidableEq, Repr

/-- QoS class tiers of the koordinator extension (spec glossary): LSR, LS,
BE, System, or none/unset. -/
inductive QoSClass : Type where
  | LSR
  | LS
  | BE
  | SYSTEM
  | NONE
deriving DecidableEq, Repr

/-- Kubernetes-native QoS class derived from the cgroup parent path. -/
inductive KubeQoS : Type where
  | Guaranteed
  | Burstable
  | BestEffort
deriving DecidableEq, Repr

/-- Modelled from the spec: a container reconciliation request — the
pod-level QoS labels, the resource-status pod annotation (already past the
JSON boundary: absent, decoded, or malformed), and the container's cgroup
parent path (spec §3 ContainerRequest). -/
structure ContainerRequest where
  podLabels : List (String × String)
  podResourceStatusAnn : Option (Decoded ResourceStatus)
  cgroupParent : String
deriving DecidableEq, Repr

/-- Modelled from the spec: a host-application reconciliation request,
resolved purely by QoS class (spec §4.2 edge cases, §6). -/
structure HostAppRequest where
  name : String
  qosClass : QoSClass
  cgroupParent : String
deriving DecidableEq, Repr

/-- Resolver configuration: the best-effort CPU-manager feature flag,
threaded explicitly as the spec's design notes direct (spec §9). -/
structure ResolverConfig where
  beCPUManagerEnabled : Bool
deriving DecidableEq, Repr

/-- The koordinator QoS label key on pods (spec §6). -/
def LabelPodQoS : String := "koordinator.sh/qosClass"

/-- Lookup in a label map modelled as an association list. -/
def lookupLabel (m : List (String × String)) (k : String) : Option String :=
  (m.find? (fun p => p.1 = k)).map (fun p => p.2)

/-- Parse the QoS label value into a QoS class; unknown or absent values
map to none/unset (spec §6: one of LSR, LS, BE, System, ""). -/
def qosClassForValue (s : String) : QoSClass :=
  if s = "LSR" then .LSR
  else if s = "LS" then .LS
  else if s = "BE" then .BE
  else if s = "SYSTEM" then .SYSTEM
  else .NONE

/-- QoS class of a pod from its labels. -/
def getPodQoSClass (labels : List (String × String)) : QoSClass :=
  match lookupLabel labels LabelPodQoS with
  | none => .NONE
  | some v => qosClassForValue v

/-- Substring test on the underlying character lists. -/
def containsSubstr (s pat : String) : Bool :=
  decide (pat.data <:+: s.data)

/-- Modelled from the spec: derive the Kubernetes QoS class from a cgroup
parent path — paths of best-effort pods contain `besteffort`, burstable
pods `burstable`, otherwise guaranteed (spec §4.2 step 6/7 context). -/
def getKubeQoSByCgroupParent (cgroupParent : String) : KubeQoS :=
  if containsSubstr cgroupParent "besteffort" then .BestEffort
  else if containsSubstr cgroupParent "burstable" then .Burstable
  else .Guaranteed

/-- Modelled from the spec: decode the `ResourceStatus` pod annotation —
an absent annotation yields the empty status, malformed text is an error
(spec §4.2 step 1, §7 format errors). -/
def GetResourceStatus (ann : Option (Decoded ResourceStatus)) :
    Except String ResourceStatus :=
  match ann with
  | none => .ok ⟨"", []⟩
  | some (.ok rs) => .ok rs
  | some .malformed => .error "failed to parse resource status of pod"

/-- Resource names counted as CPU quantities: the native CPU resource and
the koordinator batch CPU extended resource. -/
def isCPUResourceName (n : String) : Bool :=
  n = "cpu" || n = "kubernetes.io/batch-cpu"

/-- Whether one NUMA-node allocation entry maps a CPU quantity. -/
def numaHasCPU (nr : NUMANodeResource) : Bool :=
  nr.resources.any (fun p => isCPUResourceName p.1)

/-- The NUMA nodes to which the allocation maps a CPU quantity. -/
def cpuAllocNodes (rs : ResourceStatus) : List Int :=
  (rs.numaNodeResources.filter numaHasCPU).map (fun nr => nr.node)

/-- Comma-join a list of cpuset strings (spec §4.2: pools joined by comma
in listed order). -/
def joinCPUSets (l : List String) : String :=
  String.intercalate "," l

/-- The cpusets of the pools whose NUMA node is among the given nodes,
ordered by the node's position in the pool list (spec §4.2 edge cases). -/
def poolsForNodes (pools : List CPUSharedPool) (nodes : List Int) : List String :=
  (pools.filter (fun p => nodes.contains p.node)).map (fun p => p.cpuset)

/-- The cpusets of all pools in listed order. -/
def allPools (pools : List CPUSharedPool) : List String :=
  pools.map (fun p => p.cpuset)

/-- Modelled from the spec: `getContainerCPUSet` — the container cpuset
resolver precedence algorithm of spec §4.2 (first match wins):
1. a valid `ResourceStatus` with non-empty top-level cpuset is returned
   verbatim; a malformed one is an error;
2. a best-effort pod under the enabled BE CPU manager with a CPU quantity
   in its NUMA allocation gets the matching best-effort pools;
3. a CPU quantity in the NUMA allocation selects the matching normal pools;
4. a system-QoS pod gets the reserved system cpuset;
5. an LS pod gets the union of all normal pools;
6. a burstable/unset pod gets nil under the static kubelet policy and the
   full pool union otherwise;
7. a best-effort pod with no matching case gets the empty (non-nil) string.
An error result embeds the Go `(nil, err)` return. -/
def getContainerCPUSet (r : cpusetRule) (cfg : ResolverConfig)
    (req : ContainerRequest) : Except String (Option String) :=
  match GetResourceStatus req.podResourceStatusAnn with
  | .error e => .error e
  | .ok podAlloc =>
    if podAlloc.cpuset ≠ "" then
      .ok (some podAlloc.cpuset)
    else
      let qos := getPodQoSClass req.podLabels
      let cpuNodes := cpuAllocNodes podAlloc
      if cfg.beCPUManagerEnabled = true ∧ qos = .BE ∧ cpuNodes ≠ [] then
        .ok (some (joinCPUSets (poolsForNodes r.beSharePools cpuNodes)))
      else if cpuNodes ≠ [] then
        .ok (some (joinCPUSets (poolsForNodes r.sharePools cpuNodes)))
      else
        match qos with
        | .SYSTEM => .ok (some r.systemQOSCPUSet)
        | .LS => .ok (some (joinCPUSets (allPools r.sharePools)))
        | .BE => .ok (some "")
        | _ =>
          match getKubeQoSByCgroupParent req.cgroupParent with
          | .BestEffort => .ok (some "")
          | _ =>
            if r.kubeletPolicy.policy = "static" then
              .ok none
            else
              .ok (some (joinCPUSets (allPools r.sharePools)))

/-- Modelled from the spec: `getHostAppCpuset` — host applications skip
container-specific steps and resolve purely by QoS class; a nil request is
a no-op, LS gets the union of all normal share pools, and any other class
is unsupported and an error (spec §4.2 edge cases; behaviour pinned by
`Test_cpusetRule_getHostAppCpuset`). -/
def getHostAppCpuset (r : cpusetRule) (req : Option HostAppRequest) :
    Except String (Option String) :=
  match req with
  | none => .ok none
  | some app =>
    match app.qosClass with
    | .LS => .ok (some (joinCPUSets (allPools r.sharePools)))
    | _ => .error ("unsupported qos class for host application " ++ app.name)

/-- Modelled from the spec: the node-topology snapshot consumed by the
rule parser — the independently optional annotation payloads for the
kubelet CPU-manager policy, the shared-pool list, the best-effort
shared-pool list, and the system-QoS resource, each past the JSON boundary
(spec §4.1, §6). -/
structure NodeTopo where
  cpuManagerPolicyAnn : Option (Decoded KubeletCPUManagerPolicy)
  cpuSharedPoolsAnn : Option (Decoded (List CPUSharedPool))
  beCPUSharedPoolsAnn : Option (Decoded (List CPUSharedPool))
  systemQOSResourceAnn : Option (Decoded SystemQOSResource)
deriving DecidableEq, Repr

/-- Decode one optional annotation: absent maps to the zero value,
malformed is a format error (spec §4.1). -/
def decodeAnn {α : Type} (zero : α) : Option (Decoded α) → Except String α
  | none => .ok zero
  | some (.ok a) => .ok a
  | some .malformed => .error "annotation format error"

/-- Modelled from the spec: build the candidate Rule from the snapshot's
decoded annotations; a decode failure for any annotation aborts the whole
parse (spec §4.1). -/
def buildRule (topo : NodeTopo) : Except String cpusetRule :=
  match decodeAnn ⟨""⟩ topo.cpuManagerPolicyAnn with
  | .error e => .error e
  | .ok policy =>
    match decodeAnn [] topo.cpuSharedPoolsAnn with
    | .error e => .error e
    | .ok pools =>
      match decodeAnn [] topo.beCPUSharedPoolsAnn with
      | .error e => .error e
      | .ok bePools =>
        match decodeAnn ⟨""⟩ topo.systemQOSResourceAnn with
        | .error e => .error e
        | .ok sysRes => .ok ⟨policy, pools, bePools, sysRes.cpuset⟩

/-- Result of one `parseRule` call: the Rule stored after the call, the
changed flag, and the returned error if any. -/
structure ParseOutcome where
  rule : Option cpusetRule
  changed : Bool
  err : Option String
deriving DecidableEq, Repr

/-- Modelled from the spec: `parseRule` — decode the snapshot into a
candidate Rule; on any decode error keep the stored Rule untouched with
`changed = false`; on success replace the store only when the candidate
differs from the current Rule by deep structural equality (spec §4.1). -/
def parseRule (cur : Option cpusetRule) (topo : NodeTopo) : ParseOutcome :=
  match buildRule topo with
  | .error e => ⟨cur, false, some e⟩
  | .ok cand =>
    if cur = some cand then ⟨cur, false, none⟩
    else ⟨some cand, true, none⟩

/-! The reconciliation callback (spec §4.5) over a shallow cgroup
filesystem: a map from cgroup paths to cpuset file contents. -/

/-- The cgroup filesystem state: cpuset file contents per cgroup path. -/
def CgroupFS : Type := String → Option String

/-- Write one cpuset file. -/
def writeFS (fs : CgroupFS) (path content : String) : CgroupFS :=
  fun p => if p = path then some content else fs p

/-- Modelled from the spec: one pod in a callback target — its cgroup
directory, QoS labels, resource-status pod annotation, and the container
IDs of its init-containers, containers, and sandbox (spec §4.5, §3
PodMeta). -/
structure PodTarget where
  uid : String
  cgroupDir : String
  podLabels : List (String × String)
  podResourceStatusAnn : Option (Decoded ResourceStatus)
  initContainerIDs : List String
  containerIDs : List String
  sandboxID : String
deriving DecidableEq, Repr

/-- Modelled from the spec: one host application in a callback target,
with its declared cgroup path (spec §4.5, §6). -/
structure HostAppTarget where
  name : String
  qos : QoSClass
  parentDir : String
  relativePath : String
deriving DecidableEq, Repr

/-- Modelled from the spec: the aggregated callback target delivered on a
change notification (spec §4.4). -/
structure CallbackTarget where
  pods : List PodTarget
  hostApps : List HostAppTarget
deriving DecidableEq, Repr

/-- Cgroup parent directory of one container of a pod. -/
def containerCgroupPath (p : PodTarget) (containerID : String) : String :=
  p.cgroupDir ++ "/" ++ containerID

/-- The container resolution request for one container of a pod. -/
def containerReqOf (p : PodTarget) (containerID : String) : ContainerRequest :=
  ⟨p.podLabels, p.podResourceStatusAnn, containerCgroupPath p containerID⟩

/-- All reconciliation targets of a pod: init-containers, containers, then
the sandbox (spec §4.5). -/
def podContainerIDs (p : PodTarget) : List String :=
  p.initContainerIDs ++ p.containerIDs ++ [p.sandboxID]

/-- All cgroup paths a pod's reconciliation may write. -/
def podPaths (p : PodTarget) : List String :=
  (podContainerIDs p).map (containerCgroupPath p)

/-- Process one container of a pod: resolve its cpuset, write the file on
success, skip a nil resolution, and record a resolution error without
aborting (spec §4.5; error-return behaviour pinned by
`Test_cpusetPlugin_ruleUpdateCbForPods`, which expects no returned error
even when one pod's resolution fails). -/
def processContainer (r : cpusetRule) (cfg : ResolverConfig) (p : PodTarget)
    (acc : CgroupFS × List String) (containerID : String) :
    CgroupFS × List String :=
  match getContainerCPUSet r cfg (containerReqOf p containerID) with
  | .error e => (acc.1, acc.2 ++ [e])
  | .ok none => acc
  | .ok (some s) => (writeFS acc.1 (containerCgroupPath p containerID) s, acc.2)

/-- Process every container and the sandbox of one pod. -/
def processPod (r : cpusetRule) (cfg : ResolverConfig)
    (acc : CgroupFS × List String) (p : PodTarget) : CgroupFS × List String :=
  (podContainerIDs p).foldl (processContainer r cfg p) acc

/-- Cgroup path of a host application. -/
def hostAppPath (app : HostAppTarget) : String :=
  app.parentDir ++ "/" ++ app.relativePath

/-- The host-application resolution request of a target. -/
def hostAppReqOf (app : HostAppTarget) : HostAppRequest :=
  ⟨app.name, app.qos, hostAppPath app⟩

/-- Process one host application: resolve by QoS class, write on success,
record and skip a failure (spec §4.5; error-return behaviour pinned by
`Test_cpusetPlugin_ruleUpdateCbForHostApp`, which expects no returned
error for an unsupported LSR host application). -/
def processHostApp (r : cpusetRule) (acc : CgroupFS × List String)
    (app : HostAppTarget) : CgroupFS × List String :=
  match getHostAppCpuset r (some (hostAppReqOf app)) with
  | .error e => (acc.1, acc.2 ++ [e])
  | .ok none => acc
  | .ok (some s) => (writeFS acc.1 (hostAppPath app) s, acc.2)

/-- Result of one `ruleUpdateCb` call: the cgroup filesystem after the
call, the recorded (logged) per-target failures, and the returned error. -/
structure CallbackOutcome where
  fs : CgroupFS
  skipped : List String
  err : Option String

/-- Filesystem and recorded failures after processing all pods then all
host applications of a target. -/
def afterTarget (r : cpusetRule) (cfg : ResolverConfig) (fs : CgroupFS)
    (t : CallbackTarget) : CgroupFS × List String :=
  t.hostApps.foldl (processHostApp r) (t.pods.foldl (processPod r cfg) (fs, []))

/-- Modelled from the spec: `ruleUpdateCb` — for every pod in the target
process every init-container, container, and the sandbox, then every host
application; a per-target resolution failure is recorded and skipped
without aborting the remaining targets, and the callback returns an error
only for a nil target (spec §4.5; the repository tests pin that per-target
failures are not returned: `wantErr = false` with a failing pod). -/
def ruleUpdateCb (r : cpusetRule) (cfg : ResolverConfig) (fs : CgroupFS)
    (target : Option CallbackTarget) : CallbackOutcome :=
  match target with
  | none => ⟨fs, [], some "callback target is nil"⟩
  | some t =>
    ⟨(afterTarget r cfg fs t).1, (afterTarget r cfg fs t).2, none⟩

/-! Model validation: the resolver reproduces every row of the repository
test `Test_cpusetRule_getContainerCPUSet` and
`Test_cpusetRule_getHostAppCpuset`. -/

/-- Shared-pool pair used across the test rows. -/
def testPools : List CPUSharedPool :=
  [⟨0, 0, "0-7"⟩, ⟨1, 1, "8-15"⟩]

/-- Narrower shared pools used in rows that also carry BE pools. -/
def testPoolsNarrow : List CPUSharedPool :=
  [⟨0, 0, "1-7"⟩, ⟨1, 1, "9-15"⟩]

/-- Test row: a malformed resource-status pod annotation is an error. -/
theorem modelCheck_badAllocFmt :
    getContainerCPUSet ⟨⟨""⟩, [⟨0, 0, "0-7"⟩], [], ""⟩ ⟨false⟩
      ⟨[], some .malformed, "burstable/test-pod/test-container"⟩ =
      .error "failed to parse resource status of pod" := rfl

/-- Test row: BE pod with BE CPU manager and CPU allocated on node 0 gets
the BE pool of node 0. -/
theorem modelCheck_bePool :
    getContainerCPUSet ⟨⟨""⟩, testPoolsNarrow, testPools, ""⟩ ⟨true⟩
      ⟨[(LabelPodQoS, "BE")], some (.ok ⟨"", [⟨0, [("cpu", 2)]⟩]⟩),
        "burstable/test-pod/test-container"⟩ = .ok (some "0-7") := rfl

/-- Test row: unlabeled pod with CPU allocated on node 0 gets the normal
pool of node 0. -/
theorem modelCheck_sharePool :
    getContainerCPUSet ⟨⟨""⟩, testPools, [], ""⟩ ⟨false⟩
      ⟨[], some (.ok ⟨"", [⟨0, [("cpu", 2)]⟩]⟩),
        "burstable/test-pod/test-container"⟩ = .ok (some "0-7") := rfl

/-- Test row: LS pod with no allocation gets the full pool union. -/
theorem modelCheck_lsAllPools :
    getContainerCPUSet ⟨⟨""⟩, testPools, [], ""⟩ ⟨false⟩
      ⟨[(LabelPodQoS, "LS")], none, "burstable/test-pod/test-container"⟩ =
      .ok (some "0-7,8-15") := rfl

/-- Test row: LS pod whose allocation names only a non-CPU resource gets
the full pool union. -/
theorem modelCheck_lsNoCPUAlloc :
    getContainerCPUSet ⟨⟨""⟩, testPools, [], ""⟩ ⟨false⟩
      ⟨[(LabelPodQoS, "LS")],
        some (.ok ⟨"", [⟨0, [("hugepages-1Gi", 2)]⟩]⟩),
        "burstable/test-pod/test-container"⟩ = .ok (some "0-7,8-15") := rfl

/-- Test row: unlabeled burstable pod under the none policy gets the full
pool union. -/
theorem modelCheck_burstableNone :
    getContainerCPUSet ⟨⟨"none"⟩, testPools, [], ""⟩ ⟨false⟩
      ⟨[], none, "burstable/test-pod/test-container"⟩ =
      .ok (some "0-7,8-15") := rfl

/-- Test row: unlabeled burstable pod under the static policy gets no
override. -/
theorem modelCheck_burstableStatic :
    getContainerCPUSet ⟨⟨"static"⟩, testPools, [], ""⟩ ⟨false⟩
      ⟨[], none, "burstable/test-pod/test-container"⟩ = .ok none := rfl

/-- Test row: unlabeled best-effort pod gets the empty cpuset string. -/
theorem modelCheck_besteffortEmpty :
    getContainerCPUSet ⟨⟨""⟩, testPools, [], ""⟩ ⟨false⟩
      ⟨[], none, "besteffort/test-pod/test-container"⟩ = .ok (some "") := rfl

/-- Test row: LS pod with CPU allocated on node 1 gets the normal pool of
node 1 even when BE pools exist. -/
theorem modelCheck_lsNumaPool :
    getContainerCPUSet ⟨⟨""⟩, testPoolsNarrow, testPools, ""⟩ ⟨false⟩
      ⟨[(LabelPodQoS, "LS")], some (.ok ⟨"", [⟨1, [("cpu", 2)]⟩]⟩),
        "burstable/test-pod/test-container"⟩ = .ok (some "9-15") := rfl

/-- Test row: BE pod with batch CPU allocated on node 1 gets the BE pool
of node 1. -/
theorem modelCheck_beBatchPool :
    getContainerCPUSet ⟨⟨""⟩, testPoolsNarrow, testPools, ""⟩ ⟨true⟩
      ⟨[(LabelPodQoS, "BE")],
        some (.ok ⟨"", [⟨1, [("kubernetes.io/batch-cpu", 2000)]⟩]⟩),
        "besteffort/test-pod/test-container"⟩ = .ok (some "8-15") := rfl

/-- Test row: system-QoS pod gets the reserved system cpuset. -/
theorem modelCheck_systemQOS :
    getContainerCPUSet ⟨⟨""⟩, [⟨0, 0, "4-7"⟩, ⟨1, 1, "9-15"⟩],
        [⟨0, 0, "4-7"⟩, ⟨1, 1, "8-15"⟩], "0-3"⟩ ⟨false⟩
      ⟨[(LabelPodQoS, "SYSTEM")],
        some (.ok ⟨"", [⟨1, [("hugepages-1Gi", 2)]⟩]⟩),
        "burstable/test-pod/test-container"⟩ = .ok (some "0-3") := rfl

/-- Test row: a nil host-application request resolves to no-op. -/
theorem modelCheck_hostAppNil :
    getHostAppCpuset ⟨⟨""⟩, [], [], ""⟩ none = .ok none := rfl

/-- Test row: an LSR host application is an unsupported QoS class. -/
theorem modelCheck_hostAppLSR :
    getHostAppCpuset ⟨⟨""⟩, [⟨0, 0, "0-7"⟩, ⟨1, 0, "8-15"⟩], [], ""⟩
      (some ⟨"test-app", .LSR, ""⟩) =
      .error "unsupported qos class for host application test-app" := rfl

/-- Test row: an LS host application gets the full pool union. -/
theorem modelCheck_hostAppLS :
    getHostAppCpuset ⟨⟨""⟩, [⟨0, 0, "0-7"⟩, ⟨1, 0, "8-15"⟩], [], ""⟩
      (some ⟨"test-app", .LS, ""⟩) = .ok (some "0-7,8-15") := rfl

/-! Model validation of the reconciliation callback against
`Test_cpusetPlugin_ruleUpdateCbForPods` and
`Test_cpusetPlugin_ruleUpdateCbForHostApp`. -/

/-- The pod with a valid top-level cpuset override in the callback test. -/
def podWithAlloc : PodTarget :=
  ⟨"pod-with-cpuset-alloc-uid", "kubepods/pod-with-cpuset-alloc-uid",
    [], some (.ok ⟨"2-4", []⟩), [],
    ["container-with-cpuset-alloc-uid"], "pod-with-cpuset-alloc-sandbox-id"⟩

/-- The LS pod sharing the pools in the callback test. -/
def podCpuShare : PodTarget :=
  ⟨"pod-cpu-share-uid", "kubepods/pod-cpu-share-uid",
    [(LabelPodQoS, "LS")], none, ["init-container-with-cpu-share-uid"],
    ["container-with-cpu-share-uid"], "pod-cpu-share-sandbox-id"⟩

/-- The pod with a malformed resource-status annotation in the callback
test. -/
def podBadAlloc : PodTarget :=
  ⟨"pod-with-bad-cpuset-alloc-uid", "kubepods/pod-with-bad-cpuset-alloc-uid",
    [], some .malformed, [],
    ["container-with-bad-cpuset-alloc-uid"], "pod-with-bad-cpuset-alloc-sandbox-id"⟩

/-- The Rule of the callback test: a single shared pool `0-1,5-7`. -/
def cbRule : cpusetRule := ⟨⟨""⟩, [⟨0, 0, "0-1,5-7"⟩], [], ""⟩

/-- Initial cgroup filesystem of the callback test: every file empty. -/
def cbFS : CgroupFS := fun _ => some ""

/-- The callback target of the pods callback test. -/
def cbTarget : CallbackTarget := ⟨[podWithAlloc, podCpuShare, podBadAlloc], []⟩

/-- Callback test: the override pod's container and sandbox files receive
the annotated cpuset. -/
theorem modelCheck_cbOverridePod :
    (ruleUpdateCb cbRule ⟨false⟩ cbFS (some cbTarget)).fs
        "kubepods/pod-with-cpuset-alloc-uid/container-with-cpuset-alloc-uid" =
      some "2-4" ∧
    (ruleUpdateCb cbRule ⟨false⟩ cbFS (some cbTarget)).fs
        "kubepods/pod-with-cpuset-alloc-uid/pod-with-cpuset-alloc-sandbox-id" =
      some "2-4" := by
  constructor <;> rfl

/-- Callback test: the LS pod's init-container, container, and sandbox
files receive the share-pool cpuset despite the failing sibling pod. -/
theorem modelCheck_cbSharePod :
    (ruleUpdateCb cbRule ⟨false⟩ cbFS (some cbTarget)).fs
        "kubepods/pod-cpu-share-uid/init-container-with-cpu-share-uid" =
      some "0-1,5-7" ∧
    (ruleUpdateCb cbRule ⟨false⟩ cbFS (some cbTarget)).fs
        "kubepods/pod-cpu-share-uid/container-with-cpu-share-uid" =
      some "0-1,5-7" ∧
    (ruleUpdateCb cbRule ⟨false⟩ cbFS (some cbTarget)).fs
        "kubepods/pod-cpu-share-uid/pod-cpu-share-sandbox-id" =
      some "0-1,5-7" := by
  refine ⟨?_, ?_, ?_⟩ <;> rfl

/-- Callback test: the failing pod's files stay empty, its failure is
recorded, and the callback returns no error. -/
theorem modelCheck_cbBadPod :
    (ruleUpdateCb cbRule ⟨false⟩ cbFS (some cbTarget)).fs
        "kubepods/pod-with-bad-cpuset-alloc-uid/container-with-bad-cpuset-alloc-uid" =
      some "" ∧
    (ruleUpdateCb cbRule ⟨false⟩ cbFS (some cbTarget)).fs
        "kubepods/pod-with-bad-cpuset-alloc-uid/pod-with-bad-cpuset-alloc-sandbox-id" =
      some "" ∧
    (ruleUpdateCb cbRule ⟨false⟩ cbFS (some cbTarget)).skipped =
      ["failed to parse resource status of pod",
        "failed to parse resource status of pod"] ∧
    (ruleUpdateCb cbRule ⟨false⟩ cbFS (some cbTarget)).err = none := by
  refine ⟨?_, ?_, ?_, ?_⟩ <;> rfl

/-- Host-app callback test: an LS host application's file receives the
full pool union with no returned error. -/
theorem modelCheck_cbHostAppLS :
    (ruleUpdateCb ⟨⟨""⟩, [⟨0, 0, "0-7"⟩, ⟨1, 0, "8-15"⟩], [], ""⟩ ⟨false⟩ cbFS
        (some ⟨[], [⟨"test-app", .LS, "test-ls", "test-app"⟩]⟩)).fs
        "test-ls/test-app" = some "0-7,8-15" ∧
    (ruleUpdateCb ⟨⟨""⟩, [⟨0, 0, "0-7"⟩, ⟨1, 0, "8-15"⟩], [], ""⟩ ⟨false⟩ cbFS
        (some ⟨[], [⟨"test-app", .LS, "test-ls", "test-app"⟩]⟩)).err =
      none := by
  constructor <;> rfl

/-- Host-app callback test: an LSR host application's file stays empty and
the callback returns no error. -/
theorem modelCheck_cbHostAppLSR :
    (ruleUpdateCb ⟨⟨""⟩, [⟨0, 0, "0-7"⟩, ⟨1, 0, "8-15"⟩], [], ""⟩ ⟨false⟩ cbFS
        (some ⟨[], [⟨"test-app", .LSR, "test-ls", "test-app"⟩]⟩)).fs
        "test-ls/test-app" = some "" ∧
    (ruleUpdateCb ⟨⟨""⟩, [⟨0, 0, "0-7"⟩, ⟨1, 0, "8-15"⟩], [], ""⟩ ⟨false⟩ cbFS
        (some ⟨[], [⟨"test-app", .LSR, "test-ls", "test-app"⟩]⟩)).err =
      none := by
  constructor <;> rfl

/-- Parser test: a malformed shared-pool annotation aborts the parse and
leaves the stored Rule untouched. -/
theorem modelCheck_parseBadFmt :
    parseRule (some ⟨⟨""⟩, [⟨0, 0, "0-7"⟩, ⟨1, 0, "8-15"⟩], [], ""⟩)
      ⟨none, some .malformed, none, none⟩ =
      ⟨some ⟨⟨""⟩, [⟨0, 0, "0-7"⟩, ⟨1, 0, "8-15"⟩], [], ""⟩, false,
        some "annotation format error"⟩ := rfl

/-- Parser test: an unchanged snapshot yields `changed = false` and keeps
the stored Rule. -/
theorem modelCheck_parseSame :
    parseRule (some ⟨⟨""⟩, [⟨0, 0, "0-7"⟩, ⟨1, 0, "8-15"⟩], [], ""⟩)
      ⟨none, some (.ok [⟨0, 0, "0-7"⟩, ⟨1, 0, "8-15"⟩]), none, none⟩ =
      ⟨some ⟨⟨""⟩, [⟨0, 0, "0-7"⟩, ⟨1, 0, "8-15"⟩], [], ""⟩, false, none⟩ := by
  rfl

/-- Parser test: a fresh snapshot over an empty store installs the new
Rule with `changed = true`. -/
theorem modelCheck_parseSuccess :
    parseRule none
      ⟨some (.ok ⟨"none"⟩), some (.ok [⟨0, 0, "0-7"⟩, ⟨1, 0, "8-15"⟩]), none,
        some (.ok ⟨"16-17"⟩)⟩ =
      ⟨some ⟨⟨"none"⟩, [⟨0, 0, "0-7"⟩, ⟨1, 0, "8-15"⟩], [], "16-17"⟩, true,
        none⟩ := by
  rfl

/-! Helper lemmas about the reconciliation folds: frame properties (a fold
touches only its own write paths), write properties (a successful
resolution is visible in the final filesystem), and monotonicity of the
recorded-failure list. -/

/-- Concatenation of the write paths of a pod list. -/
def podsPaths : List PodTarget → List String
  | [] => []
  | p :: rest => podPaths p ++ podsPaths rest

/-- All write paths of a callback target: pod paths then host-app paths. -/
def targetPaths (t : CallbackTarget) : List String :=
  podsPaths t.pods ++ t.hostApps.map hostAppPath

theorem mem_podsPaths {a : String} {pods : List PodTarget} {p : PodTarget}
    (hp : p ∈ pods) (ha : a ∈ podPaths p) : a ∈ podsPaths pods := by
  induction pods with
  | nil => cases hp
  | cons p0 rest ih =>
    rcases List.mem_cons.mp hp with rfl | hpm
    · exact List.mem_append_left _ ha
    · exact List.mem_append_right _ (ih hpm)

theorem processContainer_fs_frame (r : cpusetRule) (cfg : ResolverConfig)
    (p : PodTarget) (acc : CgroupFS × List String) (cid q : String)
    (h : q ≠ containerCgroupPath p cid) :
    (processContainer r cfg p acc cid).1 q = acc.1 q := by
  unfold processContainer
  cases getContainerCPUSet r cfg (containerReqOf p cid) with
  | error e => rfl
  | ok o =>
    cases o with
    | none => rfl
    | some s => simp [writeFS, h]

theorem foldContainers_fs_frame (r : cpusetRule) (cfg : ResolverConfig)
    (p : PodTarget) (cids : List String) (acc : CgroupFS × List String)
    (q : String) (h : ∀ cid ∈ cids, q ≠ containerCgroupPath p cid) :
    (cids.foldl (processContainer r cfg p) acc).1 q = acc.1 q := by
  induction cids generalizing acc with
  | nil => rfl
  | cons c rest ih =>
    simp only [List.foldl_cons]
    rw [ih _ (fun cid hm => h cid (List.mem_cons_of_mem _ hm))]
    exact processContainer_fs_frame r cfg p acc c q (h c (List.mem_cons_self _ _))

theorem processPod_fs_frame (r : cpusetRule) (cfg : ResolverConfig)
    (acc : CgroupFS × List String) (p : PodTarget) (q : String)
    (h : q ∉ podPaths p) :
    (processPod r cfg acc p).1 q = acc.1 q := by
  apply foldContainers_fs_frame
  intro cid hm heq
  apply h
  rw [heq]
  exact List.mem_map_of_mem _ hm

theorem foldPods_fs_frame (r : cpusetRule) (cfg : ResolverConfig)
    (pods : List PodTarget) (acc : CgroupFS × List String) (q : String)
    (h : ∀ p ∈ pods, q ∉ podPaths p) :
    (pods.foldl (processPod r cfg) acc).1 q = acc.1 q := by
  induction pods generalizing acc with
  | nil => rfl
  | cons p rest ih =>
    simp only [List.foldl_cons]
    rw [ih _ (fun x hm => h x (List.mem_cons_of_mem _ hm))]
    exact processPod_fs_frame r cfg acc p q (h p (List.mem_cons_self _ _))

theorem processHostApp_fs_frame (r : cpusetRule) (acc : CgroupFS × List String)
    (app : HostAppTarget) (q : String) (h : q ≠ hostAppPath app) :
    (processHostApp r acc app).1 q = acc.1 q := by
  unfold processHostApp
  cases getHostAppCpuset r (some (hostAppReqOf app)) with
  | error e => rfl
  | ok o =>
    cases o with
    | none => rfl
    | some s => simp [writeFS, h]

theorem foldApps_fs_frame (r : cpusetRule) (apps : List HostAppTarget)
    (acc : CgroupFS × List String) (q : String)
    (h : ∀ a ∈ apps, q ≠ hostAppPath a) :
    (apps.foldl (processHostApp r) acc).1 q = acc.1 q := by
  induction apps generalizing acc with
  | nil => rfl
  | cons a rest ih =>
    simp only [List.foldl_cons]
    rw [ih _ (fun x hm => h x (List.mem_cons_of_mem _ hm))]
    exact processHostApp_fs_frame r acc a q (h a (List.mem_cons_self _ _))

theorem foldContainers_fs_write (r : cpusetRule) (cfg : ResolverConfig)
    (p : PodTarget) (cids : List String) (acc : CgroupFS × List String)
    (cid v : String) (hm : cid ∈ cids)
    (hnd : (cids.map (containerCgroupPath p)).Nodup)
    (hres : getContainerCPUSet r cfg (containerReqOf p cid) = .ok (some v)) :
    (cids.foldl (processContainer r cfg p) acc).1 (containerCgroupPath p cid) =
      some v := by
  induction cids generalizing acc with
  | nil => cases hm
  | cons c rest ih =>
    rw [List.map_cons, List.nodup_cons] at hnd
    rcases List.mem_cons.mp hm with rfl | hmem
    · simp only [List.foldl_cons]
      have hfr : ∀ cid2 ∈ rest,
          containerCgroupPath p cid ≠ containerCgroupPath p cid2 := by
        intro cid2 hm2 heq
        apply hnd.1
        rw [heq]
        exact List.mem_map_of_mem _ hm2
      rw [foldContainers_fs_frame r cfg p rest _ _ hfr]
      unfold processContainer
      rw [hres]
      simp [writeFS]
    · simp only [List.foldl_cons]
      exact ih _ hmem hnd.2

theorem foldPods_fs_write (r : cpusetRule) (cfg : ResolverConfig)
    (pods : List PodTarget) (acc : CgroupFS × List String)
    (p : PodTarget) (cid v : String)
    (hp : p ∈ pods) (hm : cid ∈ podContainerIDs p)
    (hnd : (podsPaths pods).Nodup)
    (hres : getContainerCPUSet r cfg (containerReqOf p cid) = .ok (some v)) :
    (pods.foldl (processPod r cfg) acc).1 (containerCgroupPath p cid) =
      some v := by
  induction pods generalizing acc with
  | nil => cases hp
  | cons p0 rest ih =>
    have hnd' := hnd
    rw [show podsPaths (p0 :: rest) = podPaths p0 ++ podsPaths rest from rfl,
      List.nodup_append] at hnd'
    rcases List.mem_cons.mp hp with rfl | hpm
    · simp only [List.foldl_cons]
      have hq : containerCgroupPath p cid ∈ podPaths p :=
        List.mem_map_of_mem _ hm
      have hfr : ∀ x ∈ rest, containerCgroupPath p cid ∉ podPaths x := by
        intro x hx hqin
        exact hnd'.2.2 hq (mem_podsPaths hx hqin)
      rw [foldPods_fs_frame r cfg rest _ _ hfr]
      exact foldContainers_fs_write r cfg p (podContainerIDs p) _ cid v hm
        hnd'.1 hres
    · simp only [List.foldl_cons]
      exact ih _ hpm hnd'.2.1

theorem processContainer_skip_mono (r : cpusetRule) (cfg : ResolverConfig)
    (p : PodTarget) (acc : CgroupFS × List String) (cid e : String)
    (h : e ∈ acc.2) : e ∈ (processContainer r cfg p acc cid).2 := by
  unfold processContainer
  cases getContainerCPUSet r cfg (containerReqOf p cid) with
  | error e2 => exact List.mem_append_left _ h
  | ok o => cases o with
    | none => exact h
    | some s => exact h

theorem foldContainers_skip_mono (r : cpusetRule) (cfg : ResolverConfig)
    (p : PodTarget) (cids : List String) (acc : CgroupFS × List String)
    (e : String) (h : e ∈ acc.2) :
    e ∈ (cids.foldl (processContainer r cfg p) acc).2 := by
  induction cids generalizing acc with
  | nil => exact h
  | cons c rest ih =>
    simp only [List.foldl_cons]
    exact ih _ (processContainer_skip_mono r cfg p acc c e h)

theorem foldContainers_skip_err (r : cpusetRule) (cfg : ResolverConfig)
    (p : PodTarget) (cids : List String) (acc : CgroupFS × List String)
    (cid e : String) (hm : cid ∈ cids)
    (hres : getContainerCPUSet r cfg (containerReqOf p cid) = .error e) :
    e ∈ (cids.foldl (processContainer r cfg p) acc).2 := by
  induction cids generalizing acc with
  | nil => cases hm
  | cons c rest ih =>
    rcases List.mem_cons.mp hm with rfl | hmem
    · simp only [List.foldl_cons]
      apply foldContainers_skip_mono
      unfold processContainer
      rw [hres]
      exact List.mem_append_right _ (List.mem_singleton.mpr rfl)
    · simp only [List.foldl_cons]
      exact ih _ hmem

theorem processPod_skip_mono (r : cpusetRule) (cfg : ResolverConfig)
    (acc : CgroupFS × List String) (p : PodTarget) (e : String)
    (h : e ∈ acc.2) : e ∈ (processPod r cfg acc p).2 :=
  foldContainers_skip_mono r cfg p (podContainerIDs p) acc e h

theorem foldPods_skip_mono (r : cpusetRule) (cfg : ResolverConfig)
    (pods : List PodTarget) (acc : CgroupFS × List String) (e : String)
    (h : e ∈ acc.2) : e ∈ (pods.foldl (processPod r cfg) acc).2 := by
  induction pods generalizing acc with
  | nil => exact h
  | cons p rest ih =>
    simp only [List.foldl_cons]
    exact ih _ (processPod_skip_mono r cfg acc p e h)

theorem foldPods_skip_err (r : cpusetRule) (cfg : ResolverConfig)
    (pods : List PodTarget) (acc : CgroupFS × List String)
    (p : PodTarget) (cid e : String) (hp : p ∈ pods)
    (hm : cid ∈ podContainerIDs p)
    (hres : getContainerCPUSet r cfg (containerReqOf p cid) = .error e) :
    e ∈ (pods.foldl (processPod r cfg) acc).2 := by
  induction pods generalizing acc with
  | nil => cases hp
  | cons p0 rest ih =>
    rcases List.mem_cons.mp hp with rfl | hpm
    · simp only [List.foldl_cons]
      exact foldPods_skip_mono r cfg rest _ e
        (foldContainers_skip_err r cfg p (podContainerIDs p) acc cid e hm hres)
    · simp only [List.foldl_cons]
      exact ih _ hpm

theorem processHostApp_skip_mono (r : cpusetRule)
    (acc : CgroupFS × List String) (app : HostAppTarget) (e : String)
    (h : e ∈ acc.2) : e ∈ (processHostApp r acc app).2 := by
  unfold processHostApp
  cases getHostAppCpuset r (some (hostAppReqOf app)) with
  | error e2 => exact List.mem_append_left _ h
  | ok o => cases o with
    | none => exact h
    | some s => exact h

theorem foldApps_skip_mono (r : cpusetRule) (apps : List HostAppTarget)
    (acc : CgroupFS × List String) (e : String) (h : e ∈ acc.2) :
    e ∈ (apps.foldl (processHostApp r) acc).2 := by
  induction apps generalizing acc with
  | nil => exact h
  | cons a rest ih =>
    simp only [List.foldl_cons]
    exact ih _ (processHostApp_skip_mono r acc a e h)

theorem foldContainers_noop (r : cpusetRule) (cfg : ResolverConfig)
    (p : PodTarget) (cids : List String) (acc : CgroupFS × List String)
    (h : ∀ cid ∈ cids, getContainerCPUSet r cfg (containerReqOf p cid) = .ok none) :
    cids.foldl (processContainer r cfg p) acc = acc := by
  induction cids generalizing acc with
  | nil => rfl
  | cons c rest ih =>
    simp only [List.foldl_cons]
    have hstep : processContainer r cfg p acc c = acc := by
      unfold processContainer
      rw [h c (List.mem_cons_self _ _)]
    rw [hstep]
    exact ih _ (fun cid hm => h cid (List.mem_cons_of_mem _ hm))

/-! Claim theorems. -/

/-- C1: for every container request whose pod carries a well-formed
resource-status pod annotation with a non-empty top-level cpuset,
`getContainerCPUSet` returns exactly that cpuset string, regardless of the
QoS label, share-pool configuration, or kubelet policy; and for every
request whose resource-status pod annotation is malformed,
`getContainerCPUSet` returns an error, never a silent fallback to pools. -/
theorem resource_status_override_precedence (r : cpusetRule)
    (cfg : ResolverConfig) (req : ContainerRequest) (rs : ResourceStatus) :
    (req.podResourceStatusAnn = some (.ok rs) → rs.cpuset ≠ "" →
      getContainerCPUSet r cfg req = .ok (some rs.cpuset)) ∧
    (req.podResourceStatusAnn = some .malformed →
      ∃ e, getContainerCPUSet r cfg req = .error e) := by
  constructor
  · intro hann hne
    unfold getContainerCPUSet GetResourceStatus
    rw [hann]
    simp [hne]
  · intro hann
    refine ⟨"failed to parse resource status of pod", ?_⟩
    unfold getContainerCPUSet GetResourceStatus
    rw [hann]

/-- Witness for C1 at the repository test inputs: the override wins over
an LS label, static policy and populated pools, and a malformed value is
an error. -/
theorem resource_status_override_precedence_witness :
    getContainerCPUSet ⟨⟨"static"⟩, testPools, testPools, "0-3"⟩ ⟨true⟩
        ⟨[(LabelPodQoS, "LS")], some (.ok ⟨"2-4", []⟩), "burstable/x"⟩ =
      .ok (some "2-4") ∧
    (∃ e, getContainerCPUSet ⟨⟨""⟩, testPools, [], ""⟩ ⟨false⟩
        ⟨[], some .malformed, "burstable/x"⟩ = .error e) := by
  constructor
  · exact (resource_status_override_precedence _ _ _ ⟨"2-4", []⟩).1 rfl
      (by decide)
  · exact (resource_status_override_precedence _ _
      ⟨[], some .malformed, "burstable/x"⟩ ⟨"", []⟩).2 rfl

/-- C2: for every stored Rule and every node-topology snapshot in which
any present policy annotation fails to decode, `parseRule` returns an
error with `changed = false`, and the stored Rule after the call is
structurally identical to the stored Rule before the call. -/
theorem parse_rule_bad_ann_preserves_store (cur : Option cpusetRule)
    (topo : NodeTopo)
    (h : topo.cpuManagerPolicyAnn = some .malformed ∨
      topo.cpuSharedPoolsAnn = some .malformed ∨
      topo.beCPUSharedPoolsAnn = some .malformed ∨
      topo.systemQOSResourceAnn = some .malformed) :
    parseRule cur topo = ⟨cur, false, some "annotation format error"⟩ := by
  obtain ⟨a, b, c, d⟩ := topo
  rcases a with _ | (_ | _) <;> rcases b with _ | (_ | _) <;>
    rcases c with _ | (_ | _) <;> rcases d with _ | (_ | _) <;>
    simp_all [parseRule, buildRule, decodeAnn]

/-- Witness for C2: a malformed shared-pool annotation next to a populated
store returns an error and keeps the store intact. -/
theorem parse_rule_bad_ann_preserves_store_witness :
    parseRule (some ⟨⟨"none"⟩, [⟨0, 0, "0-3"⟩], [], "8-9"⟩)
      ⟨some (.ok ⟨"none"⟩), some .malformed, none, none⟩ =
      ⟨some ⟨⟨"none"⟩, [⟨0, 0, "0-3"⟩], [], "8-9"⟩, false,
        some "annotation format error"⟩ :=
  parse_rule_bad_ann_preserves_store _ _ (Or.inr (Or.inl rfl))

/-- C7: `parseRule` is idempotent — after one successful parse, parsing
the unchanged snapshot again returns `changed = false` with no error and
leaves the stored Rule structurally equal to its prior value. -/
theorem parse_rule_idempotent (cur : Option cpusetRule) (topo : NodeTopo)
    (h : (parseRule cur topo).err = none) :
    parseRule (parseRule cur topo).rule topo =
      ⟨(parseRule cur topo).rule, false, none⟩ := by
  unfold parseRule at h ⊢
  cases hb : buildRule topo with
  | error e =>
    rw [hb] at h
    exact Option.noConfusion h
  | ok cand =>
    by_cases hc : cur = some cand
    · simp [hc]
    · simp [hc]

/-- Witness for C7 at the repository test snapshot: a successful fresh
parse followed by a reparse of the same snapshot changes nothing. -/
theorem parse_rule_idempotent_witness :
    parseRule (parseRule none
        ⟨some (.ok ⟨"none"⟩), some (.ok [⟨0, 0, "0-7"⟩, ⟨1, 0, "8-15"⟩]), none,
          some (.ok ⟨"16-17"⟩)⟩).rule
      ⟨some (.ok ⟨"none"⟩), some (.ok [⟨0, 0, "0-7"⟩, ⟨1, 0, "8-15"⟩]), none,
        some (.ok ⟨"16-17"⟩)⟩ =
      ⟨(parseRule none
        ⟨some (.ok ⟨"none"⟩), some (.ok [⟨0, 0, "0-7"⟩, ⟨1, 0, "8-15"⟩]), none,
          some (.ok ⟨"16-17"⟩)⟩).rule, false, none⟩ :=
  parse_rule_idempotent none _ rfl

/-- C10: for every Rule, including one with empty share pools, a nil
host-application request yields a nil cpuset and no error — a no-op, not
a failure. -/
theorem host_app_nil_request_noop (r : cpusetRule) :
    getHostAppCpuset r none = .ok none := rfl

/-- C4: for every container request with a best-effort QoS label, the BE
CPU manager enabled, no top-level cpuset override, and a NUMA allocation
mapping a CPU quantity to node `k`, `getContainerCPUSet` returns the
comma-joined cpuset of the best-effort share pools for node `k`, not the
normal share pools. -/
theorem be_share_pool_selection (r : cpusetRule) (cfg : ResolverConfig)
    (req : ContainerRequest) (rs : ResourceStatus) (k : Int)
    (hann : req.podResourceStatusAnn = some (.ok rs))
    (hempty : rs.cpuset = "")
    (hqos : getPodQoSClass req.podLabels = .BE)
    (hen : cfg.beCPUManagerEnabled = true)
    (hnodes : cpuAllocNodes rs = [k]) :
    getContainerCPUSet r cfg req =
      .ok (some (joinCPUSets (poolsForNodes r.beSharePools [k]))) := by
  unfold getContainerCPUSet GetResourceStatus
  rw [hann]
  simp [hempty, hqos, hen, hnodes]

/-- Witness for C4 at the spec's example: normal pools 1-7/9-15, BE pools
0-7/8-15, CPU allocated on node 0 — the result is the BE pool 0-7, which
differs from the normal pool 1-7. -/
theorem be_share_pool_selection_witness :
    getContainerCPUSet ⟨⟨""⟩, [⟨0, 0, "1-7"⟩, ⟨1, 1, "9-15"⟩],
        [⟨0, 0, "0-7"⟩, ⟨1, 1, "8-15"⟩], ""⟩ ⟨true⟩
      ⟨[(LabelPodQoS, "BE")], some (.ok ⟨"", [⟨0, [("cpu", 2)]⟩]⟩),
        "besteffort/test"⟩ = .ok (some "0-7") := by
  have h := be_share_pool_selection
    ⟨⟨""⟩, [⟨0, 0, "1-7"⟩, ⟨1, 1, "9-15"⟩], [⟨0, 0, "0-7"⟩, ⟨1, 1, "8-15"⟩], ""⟩
    ⟨true⟩
    ⟨[(LabelPodQoS, "BE")], some (.ok ⟨"", [⟨0, [("cpu", 2)]⟩]⟩),
      "besteffort/test"⟩
    ⟨"", [⟨0, [("cpu", 2)]⟩]⟩ 0 rfl rfl (by decide) rfl (by decide)
  exact h.trans (by rfl)

/-- C5: for every container request with no cpuset override and no NUMA
allocation carrying a CPU quantity, an LS QoS label — or an unset label
with a burstable cgroup parent under the kubelet policy `none` — yields
the comma-joined union of all normal share pools in listed order. -/
theorem full_share_pool_union_fallback (r : cpusetRule) (cfg : ResolverConfig)
    (req : ContainerRequest) (rs : ResourceStatus)
    (halloc : GetResourceStatus req.podResourceStatusAnn = .ok rs)
    (hempty : rs.cpuset = "")
    (hnocpu : cpuAllocNodes rs = [])
    (hcase : getPodQoSClass req.podLabels = .LS ∨
      (getPodQoSClass req.podLabels = .NONE ∧
        getKubeQoSByCgroupParent req.cgroupParent = .Burstable ∧
        r.kubeletPolicy.policy = "none")) :
    getContainerCPUSet r cfg req =
      .ok (some (joinCPUSets (allPools r.sharePools))) := by
  unfold getContainerCPUSet
  rw [halloc]
  rcases hcase with hls | ⟨hnone, hkube, hpol⟩
  · simp [hempty, hnocpu, hls]
  · simp [hempty, hnocpu, hnone, hkube, hpol]

/-- Witness for C5 at the repository test inputs: the LS no-binding case
and the unlabeled burstable case under the `none` policy both give the
full union, including an allocation naming only a non-CPU resource. -/
theorem full_share_pool_union_fallback_witness :
    getContainerCPUSet ⟨⟨""⟩, testPools, [], ""⟩ ⟨false⟩
        ⟨[(LabelPodQoS, "LS")], none, "burstable/x"⟩ =
      .ok (some "0-7,8-15") ∧
    getContainerCPUSet ⟨⟨"none"⟩, testPools, [], ""⟩ ⟨false⟩
        ⟨[], some (.ok ⟨"", [⟨0, [("hugepages-1Gi", 2)]⟩]⟩), "burstable/x"⟩ =
      .ok (some "0-7,8-15") := by
  constructor
  · exact (full_share_pool_union_fallback ⟨⟨""⟩, testPools, [], ""⟩ ⟨false⟩
      ⟨[(LabelPodQoS, "LS")], none, "burstable/x"⟩ ⟨"", []⟩ rfl rfl rfl
      (Or.inl (by decide))).trans (by rfl)
  · exact (full_share_pool_union_fallback ⟨⟨"none"⟩, testPools, [], ""⟩ ⟨false⟩
      ⟨[], some (.ok ⟨"", [⟨0, [("hugepages-1Gi", 2)]⟩]⟩), "burstable/x"⟩
      ⟨"", [⟨0, [("hugepages-1Gi", 2)]⟩]⟩ rfl rfl (by decide)
      (Or.inr ⟨by decide, by decide, rfl⟩)).trans (by rfl)

/-- C8: for every best-effort container request — a BE QoS label, or no
label with a besteffort cgroup parent — with no cpuset override and no
CPU quantity in its NUMA allocation, `getContainerCPUSet` returns a
pointer to the empty string (not nil) with no error. -/
theorem besteffort_empty_cpuset (r : cpusetRule) (cfg : ResolverConfig)
    (req : ContainerRequest) (rs : ResourceStatus)
    (halloc : GetResourceStatus req.podResourceStatusAnn = .ok rs)
    (hempty : rs.cpuset = "")
    (hnocpu : cpuAllocNodes rs = [])
    (hbe : getPodQoSClass req.podLabels = .BE ∨
      (getPodQoSClass req.podLabels = .NONE ∧
        getKubeQoSByCgroupParent req.cgroupParent = .BestEffort)) :
    getContainerCPUSet r cfg req = .ok (some "") := by
  unfold getContainerCPUSet
  rw [halloc]
  rcases hbe with hq | ⟨hq, hkube⟩
  · simp [hempty, hnocpu, hq]
  · simp [hempty, hnocpu, hq, hkube]

/-- Witness for C8: a labeled BE pod with no allocation and an unlabeled
pod under a besteffort cgroup parent both get the empty cpuset string. -/
theorem besteffort_empty_cpuset_witness :
    getContainerCPUSet ⟨⟨""⟩, testPools, testPools, ""⟩ ⟨false⟩
        ⟨[(LabelPodQoS, "BE")], none, "burstable/x"⟩ = .ok (some "") ∧
    getContainerCPUSet ⟨⟨""⟩, testPools, [], ""⟩ ⟨false⟩
        ⟨[], none, "besteffort/test-pod/test-container"⟩ = .ok (some "") := by
  constructor
  · exact besteffort_empty_cpuset ⟨⟨""⟩, testPools, testPools, ""⟩ ⟨false⟩
      ⟨[(LabelPodQoS, "BE")], none, "burstable/x"⟩ ⟨"", []⟩ rfl rfl rfl
      (Or.inl (by decide))
  · exact besteffort_empty_cpuset ⟨⟨""⟩, testPools, [], ""⟩ ⟨false⟩
      ⟨[], none, "besteffort/test-pod/test-container"⟩ ⟨"", []⟩ rfl rfl rfl
      (Or.inr ⟨by decide, by decide⟩)

/-- C6: for every container request with no QoS label, no resource-status
pod annotation, and a burstable cgroup parent, under the static kubelet
CPU-manager policy `getContainerCPUSet` returns nil with no error for
every container of the pod, and the reconciliation leaves the cgroup
cpuset files and failure records untouched. -/
theorem static_policy_no_override (r : cpusetRule) (cfg : ResolverConfig)
    (p : PodTarget) (acc : CgroupFS × List String)
    (hlabel : lookupLabel p.podLabels LabelPodQoS = none)
    (hann : p.podResourceStatusAnn = none)
    (hpol : r.kubeletPolicy.policy = "static")
    (hkube : ∀ cid ∈ podContainerIDs p,
      getKubeQoSByCgroupParent (containerCgroupPath p cid) = .Burstable) :
    (∀ cid ∈ podContainerIDs p,
      getContainerCPUSet r cfg (containerReqOf p cid) = .ok none) ∧
    processPod r cfg acc p = acc := by
  have hres : ∀ cid ∈ podContainerIDs p,
      getContainerCPUSet r cfg (containerReqOf p cid) = .ok none := by
    intro cid hm
    unfold getContainerCPUSet containerReqOf
    simp [GetResourceStatus, hann, getPodQoSClass, hlabel, cpuAllocNodes,
      hkube cid hm, hpol]
  exact ⟨hres, foldContainers_noop r cfg p _ acc hres⟩

/-- Unlabeled burstable pod used by the C6 witness. -/
def burstPod : PodTarget :=
  ⟨"pod-burst-uid", "kubepods/burstable/pod-burst-uid", [], none, [],
    ["c1"], "sb"⟩

/-- Witness for C6: a concrete unlabeled burstable pod under the static
policy resolves to nil and its reconciliation is a no-op. -/
theorem static_policy_no_override_witness :
    getContainerCPUSet ⟨⟨"static"⟩, testPools, [], ""⟩ ⟨false⟩
        (containerReqOf burstPod "c1") = .ok none ∧
    processPod ⟨⟨"static"⟩, testPools, [], ""⟩ ⟨false⟩ (cbFS, []) burstPod =
      (cbFS, []) := by
  have h := static_policy_no_override ⟨⟨"static"⟩, testPools, [], ""⟩ ⟨false⟩
    burstPod (cbFS, []) rfl rfl rfl (by decide)
  exact ⟨h.1 "c1" (by decide), h.2⟩

/-- Observable cpuset of a resolver result: the returned pointer on
success, nil on error. -/
def resolvedCpuset : Except String (Option String) → Option String
  | .ok v => v
  | .error _ => none

/-- C9: for every host-application request with the unsupported LSR QoS
class, `getHostAppCpuset` returns an error and no cpuset, the
reconciliation records the failure and leaves that app's cgroup cpuset
file unmodified, and host-app resolution depends only on the QoS class. -/
theorem host_app_unsupported_qos_error (r : cpusetRule)
    (acc : CgroupFS × List String) (app : HostAppTarget)
    (req : HostAppRequest) (hq : req.qosClass = .LSR) (hq2 : app.qos = .LSR) :
    (∃ e, getHostAppCpuset r (some req) = .error e) ∧
    (∃ e, processHostApp r acc app = (acc.1, acc.2 ++ [e])) ∧
    (∀ a b : HostAppRequest, a.qosClass = b.qosClass →
      resolvedCpuset (getHostAppCpuset r (some a)) =
        resolvedCpuset (getHostAppCpuset r (some b))) := by
  refine ⟨⟨"unsupported qos class for host application " ++ req.name, ?_⟩,
    ⟨"unsupported qos class for host application " ++ app.name, ?_⟩, ?_⟩
  · unfold getHostAppCpuset
    simp [hq]
  · have hr : getHostAppCpuset r (some (hostAppReqOf app)) =
        .error ("unsupported qos class for host application " ++ app.name) := by
      unfold getHostAppCpuset hostAppReqOf
      simp [hq2]
    unfold processHostApp
    rw [hr]
  · intro a b hab
    cases ha : a.qosClass <;> cases hb : b.qosClass <;>
      simp_all [getHostAppCpuset, resolvedCpuset]

/-- Witness for C9: the concrete LSR host application of the repository
tests errors, is skipped, and leaves the filesystem untouched. -/
theorem host_app_unsupported_qos_error_witness :
    (∃ e, getHostAppCpuset cbRule (some ⟨"test-app", .LSR, "x"⟩) = .error e) ∧
    (∃ e, processHostApp cbRule (cbFS, [])
      ⟨"test-app", .LSR, "test-ls", "test-app"⟩ = (cbFS, [e])) := by
  have h := host_app_unsupported_qos_error cbRule (cbFS, [])
    ⟨"test-app", .LSR, "test-ls", "test-app"⟩ ⟨"test-app", .LSR, "x"⟩ rfl rfl
  refine ⟨h.1, ?_⟩
  obtain ⟨e, he⟩ := h.2.1
  exact ⟨e, by simpa using he⟩

/-- C3 counterexample: in the repository's own callback scenario one pod's
cpuset resolution fails on its malformed annotation, yet `ruleUpdateCb`
returns no error — refuting the claim that a non-nil combined error is
returned. -/
theorem rule_update_cb_error_counterexample :
    getContainerCPUSet cbRule ⟨false⟩
        (containerReqOf podBadAlloc "container-with-bad-cpuset-alloc-uid") =
      .error "failed to parse resource status of pod" ∧
    (ruleUpdateCb cbRule ⟨false⟩ cbFS (some cbTarget)).err = none := by
  constructor <;> rfl

/-- C3 (amended): for every callback target with pairwise-distinct write
paths in which at least one pod's cpuset resolution fails, `ruleUpdateCb`
still resolves and writes the cpuset for every other pod's
init-containers, containers, and sandbox, records the failure, and
returns a nil error — failures are logged and skipped, not returned as a
combined error. -/
theorem rule_update_cb_best_effort_continues (r : cpusetRule)
    (cfg : ResolverConfig) (fs : CgroupFS) (t : CallbackTarget)
    (hnd : (targetPaths t).Nodup)
    (p : PodTarget) (hp : p ∈ t.pods) (cid0 e0 : String)
    (hm0 : cid0 ∈ podContainerIDs p)
    (hbad : getContainerCPUSet r cfg (containerReqOf p cid0) = .error e0) :
    (∀ q ∈ t.pods, ∀ cid ∈ podContainerIDs q, ∀ v : String,
      getContainerCPUSet r cfg (containerReqOf q cid) = .ok (some v) →
      (ruleUpdateCb r cfg fs (some t)).fs (containerCgroupPath q cid) =
        some v) ∧
    e0 ∈ (ruleUpdateCb r cfg fs (some t)).skipped ∧
    (ruleUpdateCb r cfg fs (some t)).err = none := by
  obtain ⟨pods, apps⟩ := t
  unfold targetPaths at hnd
  rw [List.nodup_append] at hnd
  refine ⟨?_, ?_, rfl⟩
  · intro q hq cid hm v hres
    show (afterTarget r cfg fs ⟨pods, apps⟩).1 (containerCgroupPath q cid) =
      some v
    unfold afterTarget
    have h1 : ∀ a ∈ apps, containerCgroupPath q cid ≠ hostAppPath a := by
      intro a ha heq
      apply hnd.2.2 (mem_podsPaths hq (List.mem_map_of_mem _ hm))
      rw [heq]
      exact List.mem_map_of_mem _ ha
    rw [foldApps_fs_frame r apps _ _ h1]
    exact foldPods_fs_write r cfg pods (fs, []) q cid v hq hm hnd.1 hres
  · show e0 ∈ (afterTarget r cfg fs ⟨pods, apps⟩).2
    unfold afterTarget
    exact foldApps_skip_mono r apps _ e0
      (foldPods_skip_err r cfg pods (fs, []) p cid0 e0 hp hm0 hbad)

/-- Witness for the amended C3 at the repository's callback scenario: the
LS pod's container is still written, the failure of the malformed pod is
recorded, and the returned error is nil. -/
theorem rule_update_cb_best_effort_continues_witness :
    (ruleUpdateCb cbRule ⟨false⟩ cbFS (some cbTarget)).fs
        (containerCgroupPath podCpuShare "container-with-cpu-share-uid") =
      some "0-1,5-7" ∧
    "failed to parse resource status of pod" ∈
      (ruleUpdateCb cbRule ⟨false⟩ cbFS (some cbTarget)).skipped ∧
    (ruleUpdateCb cbRule ⟨false⟩ cbFS (some cbTarget)).err = none := by
  have h := rule_update_cb_best_effort_continues cbRule ⟨false⟩ cbFS cbTarget
    (by decide) podBadAlloc (by decide) "container-with-bad-cpuset-alloc-uid"
    "failed to parse resource status of pod" (by decide) (by rfl)
  exact ⟨h.1 podCpuShare (by decide) "container-with-cpu-share-uid"
    (by decide) "0-1,5-7" (by rfl), h.2.1, h.2.2⟩

end Koordlet.Cpuset
